import Mathlib

/-!
Shallow embedding of the response pipeline of `app.py` (Travel voice chatbot):
the fallback responder, text generator, speech synthesizer (Murf AI call),
audio fetcher (download), and the response orchestrator.

External collaborators (language-model backend, speech-synthesis HTTP
endpoint, audio hosting, local filesystem) are modelled as an explicit
environment `Env`; network I/O additionally leaves a trace of `NetEvent`s so
that "no network call occurs" is statable.  Python exceptions that escape a
function are modelled with `Except`; Python dicts that the code builds are
modelled as structures with the same field names.
-/

deriving instance DecidableEq for Except

namespace TravelBot

/-- Python substring test `pat in s` (on the character sequence). -/
def containsStr (s pat : String) : Bool :=
  s.data.tails.any (fun t => pat.data.isPrefixOf t)

/-- ASCII lowercasing of one character. -/
def lowerChar (c : Char) : Char :=
  if 65 ≤ c.toNat ∧ c.toNat ≤ 90 then Char.ofNat (c.toNat + 32) else c

/-- Python `str.lower()` (restricted to ASCII case folding; the keyword
matching below only involves ASCII). -/
def py_lower (s : String) : String := ⟨s.data.map lowerChar⟩

/-- The `FALLBACK_RESPONSES` dict of `app.py` as an association list. -/
def FALLBACK_RESPONSES : List (String × String) :=
  [("travel experience", "One of my most memorable travel experiences was hiking through the Swiss Alps at sunrise. The way the light hit the snow-capped peaks was absolutely magical!"),
   ("hidden gem", "I discovered this incredible little island in Thailand called Koh Lipe. It's not as crowded as the other islands, with crystal clear water and amazing snorkeling right off the beach!"),
   ("prepare for trip", "I always research local customs first, learn a few basic phrases in the local language, pack light but smart, and make sure to try the street food - it's often the most authentic!"),
   ("adventure sport", "I tried paragliding in Nepal over the Himalayas - absolutely breathtaking views and such an adrenaline rush!"),
   ("one country", "That's tough! I'd probably choose Japan - it has this perfect blend of ancient tradition and futuristic innovation, amazing food, and the people are incredibly kind.")]

/-- Dict lookup `FALLBACK_RESPONSES[key]` (all keys used by the code are present). -/
def fbResp (key : String) : String :=
  ((FALLBACK_RESPONSES.lookup key).getD "")

/-- `get_fallback_response` of `app.py`: keyword matching on the lowercased
message, first matching group wins, generic reply otherwise. -/
def get_fallback_response (message : String) : String :=
  let message_lower := py_lower message
  if containsStr message_lower "memorable" || containsStr message_lower "experience" then
    fbResp "travel experience"
  else if containsStr message_lower "hidden" || containsStr message_lower "gem" then
    fbResp "hidden gem"
  else if containsStr message_lower "prepare" || containsStr message_lower "culture" then
    fbResp "prepare for trip"
  else if containsStr message_lower "adventure" || containsStr message_lower "sport" then
    fbResp "adventure sport"
  else if containsStr message_lower "one country" || containsStr message_lower "rest of your life" then
    fbResp "one country"
  else
    "I'd love to share more about my travel adventures! While I'm having some technical difficulties with my full capabilities, I can tell you about amazing destinations, travel tips, or cultural experiences. What would you like to know?"

/-- Conversation memory: ordered (utterance, reply) pairs, as in
`ConversationBufferMemory`. -/
abbrev ConvState := List (String × String)

/-- Network events performed by the pipeline, recorded for trace statements. -/
inductive NetEvent
  | post (url : String) (textPayload : String)
  | get (url : String)
deriving DecidableEq, Repr

/-- Parsed JSON body of a successful synthesis response: the value of the
`audioFile` field as observed by `data.get ("audioFile", "")` (empty when
absent), and the printed form `str(data)` used in error interpolation. -/
structure JsonData where
  audioFile : String
  printed : String
deriving DecidableEq, Repr

/-- Outcome of `requests.post` to the Murf endpoint, chosen by the
environment: a transport exception, or an HTTP response with a status code, a
reason phrase (used by `raise_for_status`), and a body that either parses as
JSON or raises on `.json()`. -/
inductive MurfOutcome
  | transportError (msg : String)
  | response (status : Nat) (reason : String) (body : Except String JsonData)

/-- Outcome of `requests.get` on the audio URL: a transport exception, or a
response with status code, Content-Type header and body bytes. -/
inductive GetOutcome
  | transportError (msg : String)
  | response (status : Nat) (contentType : String) (content : List Nat)

/-- The external world of the pipeline: configuration flags, the
language-model chain, the two HTTP collaborators and the local filesystem's
willingness to accept a write. -/
structure Env where
  /-- whether `llm_chain` is a non-None object (LangChain imported,
  key present and initialization succeeded). -/
  llmChain : Bool
  /-- truthiness of `OPENAI_API_KEY`. -/
  openaiApiKey : Bool
  /-- truthiness of `MURFAI_API_KEY`. -/
  murfaiApiKey : Bool
  /-- `llm_chain.predict`: from current memory and user message, either a
  completion (the memory then gains the exchange) or a raised exception. -/
  predict : ConvState → String → Except String String
  /-- the Murf speech-generation endpoint, as a function of the text sent. -/
  murfPost : String → MurfOutcome
  /-- the audio-hosting HTTP GET. -/
  httpGet : String → GetOutcome
  /-- whether `open(filename, "wb")` followed by `f.write` succeeds. -/
  writeOk : String → Bool

/-! ### MD5 (RFC 1321), as used by `hashlib.md5(url.encode()).hexdigest()` -/

def M32 : Nat := 4294967296

def rotl32 (x n : Nat) : Nat :=
  ((x <<< n) % M32) ||| (x >>> (32 - n))

def not32 (x : Nat) : Nat := x ^^^ 4294967295

def md5K : List Nat :=
  [0xd76aa478, 0xe8c7b756, 0x242070db, 0xc1bdceee,
   0xf57c0faf, 0x4787c62a, 0xa8304613, 0xfd469501,
   0x698098d8, 0x8b44f7af, 0xffff5bb1, 0x895cd7be,
   0x6b901122, 0xfd987193, 0xa679438e, 0x49b40821,
   0xf61e2562, 0xc040b340, 0x265e5a51, 0xe9b6c7aa,
   0xd62f105d, 0x02441453, 0xd8a1e681, 0xe7d3fbc8,
   0x21e1cde6, 0xc33707d6, 0xf4d50d87, 0x455a14ed,
   0xa9e3e905, 0xfcefa3f8, 0x676f02d9, 0x8d2a4c8a,
   0xfffa3942, 0x8771f681, 0x6d9d6122, 0xfde5380c,
   0xa4beea44, 0x4bdecfa9, 0xf6bb4b60, 0xbebfbc70,
   0x289b7ec6, 0xeaa127fa, 0xd4ef3085, 0x04881d05,
   0xd9d4d039, 0xe6db99e5, 0x1fa27cf8, 0xc4ac5665,
   0xf4292244, 0x432aff97, 0xab9423a7, 0xfc93a039,
   0x655b59c3, 0x8f0ccc92, 0xffeff47d, 0x85845dd1,
   0x6fa87e4f, 0xfe2ce6e0, 0xa3014314, 0x4e0811a1,
   0xf7537e82, 0xbd3af235, 0x2ad7d2bb, 0xeb86d391]

def md5S : List Nat :=
  [7, 12, 17, 22, 7, 12, 17, 22, 7, 12, 17, 22, 7, 12, 17, 22,
   5, 9, 14, 20, 5, 9, 14, 20, 5, 9, 14, 20, 5, 9, 14, 20,
   4, 11, 16, 23, 4, 11, 16, 23, 4, 11, 16, 23, 4, 11, 16, 23,
   6, 10, 15, 21, 6, 10, 15, 21, 6, 10, 15, 21, 6, 10, 15, 21]

/-- Little-endian 32-bit word `j` of a 64-byte block. -/
def blockWord (blk : List Nat) (j : Nat) : Nat :=
  blk.getD (4 * j) 0 + 256 * blk.getD (4 * j + 1) 0 +
    65536 * blk.getD (4 * j + 2) 0 + 16777216 * blk.getD (4 * j + 3) 0

structure Md5State where
  a : Nat
  b : Nat
  c : Nat
  d : Nat

def md5Round (blk : List Nat) (st : Md5State) (i : Nat) : Md5State :=
  let f :=
    if i < 16 then (st.b &&& st.c) ||| (not32 st.b &&& st.d)
    else if i < 32 then (st.d &&& st.b) ||| (not32 st.d &&& st.c)
    else if i < 48 then st.b ^^^ st.c ^^^ st.d
    else st.c ^^^ (st.b ||| not32 st.d)
  let g :=
    if i < 16 then i
    else if i < 32 then (5 * i + 1) % 16
    else if i < 48 then (3 * i + 5) % 16
    else (7 * i) % 16
  let tmp := (st.a + f + md5K.getD i 0 + blockWord blk g) % M32
  { a := st.d, b := (st.b + rotl32 tmp (md5S.getD i 0)) % M32, c := st.b, d := st.c }

def md5Compress (st : Md5State) (blk : List Nat) : Md5State :=
  let r := (List.range 64).foldl (md5Round blk) st
  { a := (st.a + r.a) % M32, b := (st.b + r.b) % M32,
    c := (st.c + r.c) % M32, d := (st.d + r.d) % M32 }

/-- Process `fuel` 64-byte blocks from the front of the (padded) message. -/
def md5Loop : Nat → List Nat → Md5State → Md5State
  | 0, _, st => st
  | n + 1, l, st => md5Loop n (l.drop 64) (md5Compress st (l.take 64))

/-- MD5 padding: 0x80, zeros up to 56 mod 64, then the bit length as 8
little-endian bytes. -/
def md5Pad (msg : List Nat) : List Nat :=
  let len := msg.length
  let zeros := (119 - len % 64) % 64
  msg ++ [128] ++ List.replicate zeros 0 ++
    (List.range 8).map (fun j => (((8 * len) % 18446744073709551616) >>> (8 * j)) % 256)

/-- The four little-endian bytes of a 32-bit word. -/
def wordBytes (w : Nat) : List Nat :=
  [w % 256, w / 256 % 256, w / 65536 % 256, w / 16777216 % 256]

/-- The 16-byte MD5 digest of a byte sequence. -/
def md5Bytes (msg : List Nat) : List Nat :=
  let padded := md5Pad msg
  let st := md5Loop (padded.length / 64) padded
    { a := 0x67452301, b := 0xefcdab89, c := 0x98badcfe, d := 0x10325476 }
  wordBytes st.a ++ wordBytes st.b ++ wordBytes st.c ++ wordBytes st.d

def hexDigits : List Char := "0123456789abcdef".data

def byteHex (b : Nat) : List Char :=
  [hexDigits.getD (b / 16 % 16) '0', hexDigits.getD (b % 16) '0']

def hexOfBytes (l : List Nat) : List Char :=
  (l.map byteHex).flatten

/-- UTF-8 encoding of one character (as in Python `str.encode()`). -/
def utf8Char (c : Char) : List Nat :=
  let n := c.toNat
  if n < 128 then [n]
  else if n < 2048 then [192 + n / 64, 128 + n % 64]
  else if n < 65536 then [224 + n / 4096, 128 + n / 64 % 64, 128 + n % 64]
  else [240 + n / 262144, 128 + n / 4096 % 64, 128 + n / 64 % 64, 128 + n % 64]

def utf8Encode (s : String) : List Nat :=
  (s.data.map utf8Char).flatten

/-- `hashlib.md5(s.encode()).hexdigest()`: 32 lowercase hex characters. -/
def md5Hexdigest (s : String) : List Char :=
  hexOfBytes (md5Bytes (utf8Encode s))

/-! ### The pipeline proper -/

/-- `get_text_response` of `app.py`, with memory passed explicitly: when the
chain and key are present, call `predict` (appending the exchange to memory on
success, falling back with memory untouched on an exception); otherwise use
the fallback responder. -/
def get_text_response (env : Env) (st : ConvState) (user_message : String) :
    String × ConvState :=
  if env.llmChain && env.openaiApiKey then
    match env.predict st user_message with
    | .ok response => (response, st ++ [(user_message, response)])
    | .error _ => (get_fallback_response user_message, st)
  else
    (get_fallback_response user_message, st)

def MURFAI_URL : String := "https://api.murf.ai/v1/speech/generate"

def MURF_VOICE_ID : String := "Caleb"

/-- The value stored in the `response` field of the `generated_response`
dict: either an error-message string or the parsed JSON data. -/
inductive RespPayload
  | str (s : String)
  | json (j : JsonData)
deriving DecidableEq, Repr

/-- The `generated_response` dict built by `get_generated_audio`. -/
structure GeneratedAudio where
  type : String
  audio_url : String
  response : RespPayload
deriving DecidableEq, Repr

/-- `get_generated_audio` of `app.py`, together with its network trace.
Without a key it returns the "not configured" error without touching the
network; otherwise one POST is issued and its outcome classified exactly as
the `try/except` chain of the source does (`raise_for_status` raises for
status 400-599; a `.json()` failure raises a `RequestException`). -/
def get_generated_audio (env : Env) (text : String) :
    GeneratedAudio × List NetEvent :=
  if env.murfaiApiKey = false then
    ({ type := "ERROR", audio_url := "",
       response := .str "Murf AI API key not configured" }, [])
  else
    match env.murfPost text with
    | .transportError e =>
        ({ type := "ERROR", audio_url := "",
           response := .str ("API Request failed: " ++ e) }, [.post MURFAI_URL text])
    | .response status reason body =>
        if 400 ≤ status ∧ status < 600 then
          ({ type := "ERROR", audio_url := "",
             response := .str ("API Request failed: " ++ reason) }, [.post MURFAI_URL text])
        else
          match body with
          | .error e =>
              ({ type := "ERROR", audio_url := "",
                 response := .str ("API Request failed: " ++ e) }, [.post MURFAI_URL text])
          | .ok data =>
              if data.audioFile ≠ "" then
                ({ type := "SUCCESS", audio_url := data.audioFile,
                   response := .json data }, [.post MURFAI_URL text])
              else
                ({ type := "ERROR", audio_url := "",
                   response := .str ("No audio URL returned. Response: " ++ data.printed) },
                 [.post MURFAI_URL text])

/-- The `final_response` dict built by `download_audio_file`. -/
structure DownloadResult where
  content : Option (List Nat)
  error : String
  filename : String
deriving DecidableEq, Repr

/-- `download_audio_file` of `app.py`, together with its network trace: one
GET; non-200 statuses and transport exceptions populate `error`, a 200 reads
the body and derives `audio_<md5(url)[0:8]>.mp3`. -/
def download_audio_file (env : Env) (url : String) :
    DownloadResult × List NetEvent :=
  match env.httpGet url with
  | .transportError e =>
      ({ content := none, error := "Download error: " ++ e, filename := "" }, [.get url])
  | .response status _contentType content =>
      if status ≠ 200 then
        ({ content := none, error := "Download failed. Status: " ++ toString status,
           filename := "" }, [.get url])
      else
        ({ content := some content, error := "",
           filename := "audio_" ++ String.mk ((md5Hexdigest url).take 8) ++ ".mp3" },
         [.get url])

/-- Local filesystem contents: filename to byte contents. -/
abbrev FS := String → Option (List Nat)

/-- `open(name, "wb")` + `write`: replaces whatever was stored under `name`. -/
def fsWrite (fs : FS) (name : String) (bytes : List Nat) : FS :=
  fun m => if m = name then some bytes else fs m

/-- Everything observable about one turn of the orchestrator: the Python
return value (or a propagated exception), the conversation memory, the
filesystem and the network trace afterwards. -/
structure TurnOut where
  result : Except String (String × Option String)
  state : ConvState
  fs : FS
  trace : List NetEvent

/-- `get_text_and_audio_response` of `app.py`: text first, then — only with a
Murf key — synthesis, download, and the bare (un-guarded) file write, whose
failure therefore escapes as an exception; every other failure falls through
to `(text_reply, None)`. -/
def get_text_and_audio_response (env : Env) (st : ConvState) (fs : FS)
    (user_message : String) : TurnOut :=
  let tr := get_text_response env st user_message
  let text_reply := tr.1
  if env.murfaiApiKey then
    let ga := get_generated_audio env text_reply
    let audio_event := ga.1
    if audio_event.type = "SUCCESS" then
      let audio_url := audio_event.audio_url
      let dl := download_audio_file env audio_url
      let download_result := dl.1
      if download_result.error = "" then
        let filename := download_result.filename
        if env.writeOk filename then
          { result := .ok (text_reply, some filename), state := tr.2,
            fs := fsWrite fs filename (download_result.content.getD []),
            trace := ga.2 ++ dl.2 }
        else
          { result := .error ("failed to write " ++ filename), state := tr.2,
            fs := fs, trace := ga.2 ++ dl.2 }
      else
        { result := .ok (text_reply, none), state := tr.2, fs := fs,
          trace := ga.2 ++ dl.2 }
    else
      { result := .ok (text_reply, none), state := tr.2, fs := fs, trace := ga.2 }
  else
    { result := .ok (text_reply, none), state := tr.2, fs := fs, trace := [] }

/-! ### Spec-side definition of the fallback responder (for refinement)

Modelled from the spec's words in section 4.1: an ordered list of
(trigger-keywords, canned-reply) rules, case-insensitive substring matching,
first match wins, generic clarifying reply otherwise. -/

def respondSpecRules : List (List String × String) :=
  [(["memorable", "experience"], fbResp "travel experience"),
   (["hidden", "gem"], fbResp "hidden gem"),
   (["prepare", "culture"], fbResp "prepare for trip"),
   (["adventure", "sport"], fbResp "adventure sport"),
   (["one country", "rest of your life"], fbResp "one country")]

def firstMatchReply : List (List String × String) → String → Option String
  | [], _ => none
  | (kws, reply) :: rest, m =>
      if kws.any (fun k => containsStr m k) then some reply
      else firstMatchReply rest m

def respondSpec (utterance : String) : String :=
  (firstMatchReply respondSpecRules (py_lower utterance)).getD
    "I'd love to share more about my travel adventures! While I'm having some technical difficulties with my full capabilities, I can tell you about amazing destinations, travel tips, or cultural experiences. What would you like to know?"

/-! ### Concrete environments used by witnesses and counterexamples -/

def emptyFS : FS := fun _ => none

/-- Murf configured, no model backend; synthesis returns a URL, the download
returns 200 with three bytes, and writes succeed. -/
def testEnv : Env where
  llmChain := false
  openaiApiKey := false
  murfaiApiKey := true
  predict := fun _ _ => .error "no backend"
  murfPost := fun _ => .response 200 "OK"
    (.ok { audioFile := "https://cdn.murf.ai/a.mp3", printed := "resp" })
  httpGet := fun _ => .response 200 "audio/mpeg" [1, 2, 3]
  writeOk := fun _ => true

def envNoMurf : Env := { testEnv with murfaiApiKey := false }

def envWriteFail : Env := { testEnv with writeOk := fun _ => false }

def envDown404 : Env := { testEnv with httpGet := fun _ => .response 404 "Not Found" [] }

/-- A configured model backend that answers every prompt with the empty
completion; Murf unconfigured. -/
def envLLMEmpty : Env :=
  { testEnv with
    llmChain := true
    openaiApiKey := true
    murfaiApiKey := false
    predict := fun _ _ => .ok "" }

/-- A configured model backend whose call raises. -/
def envLLMErr : Env := { testEnv with llmChain := true, openaiApiKey := true }

/-- Synthesis responds 200 but with an empty `audioFile` field. -/
def envNoAudioUrl : Env :=
  { testEnv with
    murfPost := (fun _ => .response 200 "OK" (.ok { audioFile := "", printed := "no url" })) }

/-- The text obtained in step 1 of the orchestrator. -/
def turnText (env : Env) (st : ConvState) (msg : String) : String :=
  (get_text_response env st msg).1

/-- The synthesis outcome the orchestrator observes for this turn. -/
def turnSynth (env : Env) (st : ConvState) (msg : String) : GeneratedAudio :=
  (get_generated_audio env (turnText env st msg)).1

/-- The download outcome the orchestrator observes for this turn. -/
def turnDownload (env : Env) (st : ConvState) (msg : String) : DownloadResult :=
  (download_audio_file env (turnSynth env st msg).audio_url).1

/-! ### Helper lemmas -/

lemma hexOfBytes_length (l : List Nat) : (hexOfBytes l).length = 2 * l.length := by
  induction l with
  | nil => rfl
  | cons b t ih =>
      simp only [hexOfBytes, List.map_cons, List.flatten_cons] at *
      simp [byteHex, ih]
      omega

lemma md5Bytes_length (msg : List Nat) : (md5Bytes msg).length = 16 := by
  simp [md5Bytes, wordBytes]

lemma md5Hexdigest_length (s : String) : (md5Hexdigest s).length = 32 := by
  simp [md5Hexdigest, hexOfBytes_length, md5Bytes_length]

lemma hexDigits_getD_mem : ∀ i, i < 16 → hexDigits.getD i '0' ∈ hexDigits := by
  decide

lemma mem_byteHex_mem_hexDigits {c : Char} {b : Nat} (h : c ∈ byteHex b) :
    c ∈ hexDigits := by
  simp only [byteHex, List.mem_cons, List.mem_singleton] at h
  rcases h with h | h | h
  · exact h ▸ hexDigits_getD_mem _ (Nat.mod_lt _ (by norm_num))
  · exact h ▸ hexDigits_getD_mem _ (Nat.mod_lt _ (by norm_num))
  · cases h

lemma mem_hexOfBytes_mem_hexDigits {c : Char} {l : List Nat}
    (h : c ∈ hexOfBytes l) : c ∈ hexDigits := by
  induction l with
  | nil => cases h
  | cons b t ih =>
      simp only [hexOfBytes, List.map_cons, List.flatten_cons, List.mem_append] at h
      rcases h with h | h
      · exact mem_byteHex_mem_hexDigits h
      · exact ih (by simpa [hexOfBytes] using h)

lemma mem_md5Hexdigest_mem_hexDigits {c : Char} {s : String}
    (h : c ∈ md5Hexdigest s) : c ∈ hexDigits :=
  mem_hexOfBytes_mem_hexDigits h

lemma get_fallback_response_ne_empty (m : String) : get_fallback_response m ≠ "" := by
  unfold get_fallback_response
  dsimp only
  split_ifs <;> decide

lemma download_trace (env : Env) (url : String) :
    (download_audio_file env url).2 = [.get url] := by
  unfold download_audio_file
  cases env.httpGet url with
  | transportError e => rfl
  | response status ct content =>
      dsimp only
      by_cases h : status ≠ 200
      · rw [if_pos h]
      · rw [if_neg h]

lemma generated_audio_trace (env : Env) (t : String)
    (h : env.murfaiApiKey = true) :
    (get_generated_audio env t).2 = [.post MURFAI_URL t] := by
  unfold get_generated_audio
  rw [if_neg (by simp [h])]
  cases env.murfPost t with
  | transportError e => rfl
  | response status reason body =>
      dsimp only
      by_cases h1 : 400 ≤ status ∧ status < 600
      · rw [if_pos h1]
      · rw [if_neg h1]
        cases body with
        | error e => rfl
        | ok data =>
            dsimp only
            by_cases h2 : data.audioFile ≠ ""
            · rw [if_pos h2]
            · rw [if_neg h2]

lemma turn_no_key (env : Env) (st : ConvState) (fs : FS) (msg : String)
    (h : env.murfaiApiKey = false) :
    get_text_and_audio_response env st fs msg =
      { result := .ok ((get_text_response env st msg).1, none),
        state := (get_text_response env st msg).2, fs := fs, trace := [] } := by
  unfold get_text_and_audio_response
  rw [h]
  rfl

lemma turn_synth_fail (env : Env) (st : ConvState) (fs : FS) (msg : String)
    (hk : env.murfaiApiKey = true)
    (hs : (get_generated_audio env (get_text_response env st msg).1).1.type ≠ "SUCCESS") :
    get_text_and_audio_response env st fs msg =
      { result := .ok ((get_text_response env st msg).1, none),
        state := (get_text_response env st msg).2, fs := fs,
        trace := (get_generated_audio env (get_text_response env st msg).1).2 } := by
  unfold get_text_and_audio_response
  rw [hk]
  dsimp only
  rw [if_pos rfl, if_neg hs]

lemma turn_dl_fail (env : Env) (st : ConvState) (fs : FS) (msg : String)
    (hk : env.murfaiApiKey = true)
    (hs : (get_generated_audio env (get_text_response env st msg).1).1.type = "SUCCESS")
    (hd : (download_audio_file env
            (get_generated_audio env (get_text_response env st msg).1).1.audio_url).1.error ≠ "") :
    get_text_and_audio_response env st fs msg =
      { result := .ok ((get_text_response env st msg).1, none),
        state := (get_text_response env st msg).2, fs := fs,
        trace := (get_generated_audio env (get_text_response env st msg).1).2 ++
          (download_audio_file env
            (get_generated_audio env (get_text_response env st msg).1).1.audio_url).2 } := by
  unfold get_text_and_audio_response
  rw [hk]
  dsimp only
  rw [if_pos rfl, if_pos hs, if_neg hd]

lemma turn_write_fail (env : Env) (st : ConvState) (fs : FS) (msg : String)
    (hk : env.murfaiApiKey = true)
    (hs : (get_generated_audio env (get_text_response env st msg).1).1.type = "SUCCESS")
    (hd : (download_audio_file env
            (get_generated_audio env (get_text_response env st msg).1).1.audio_url).1.error = "")
    (hw : env.writeOk (download_audio_file env
            (get_generated_audio env (get_text_response env st msg).1).1.audio_url).1.filename
          = false) :
    get_text_and_audio_response env st fs msg =
      { result := .error ("failed to write " ++
          (download_audio_file env
            (get_generated_audio env (get_text_response env st msg).1).1.audio_url).1.filename),
        state := (get_text_response env st msg).2, fs := fs,
        trace := (get_generated_audio env (get_text_response env st msg).1).2 ++
          (download_audio_file env
            (get_generated_audio env (get_text_response env st msg).1).1.audio_url).2 } := by
  unfold get_text_and_audio_response
  rw [hk]
  dsimp only
  rw [if_pos rfl, if_pos hs, if_pos hd, hw]
  rfl

lemma turn_full_success (env : Env) (st : ConvState) (fs : FS) (msg : String)
    (hk : env.murfaiApiKey = true)
    (hs : (get_generated_audio env (get_text_response env st msg).1).1.type = "SUCCESS")
    (hd : (download_audio_file env
            (get_generated_audio env (get_text_response env st msg).1).1.audio_url).1.error = "")
    (hw : env.writeOk (download_audio_file env
            (get_generated_audio env (get_text_response env st msg).1).1.audio_url).1.filename
          = true) :
    get_text_and_audio_response env st fs msg =
      { result := .ok ((get_text_response env st msg).1,
          some (download_audio_file env
            (get_generated_audio env (get_text_response env st msg).1).1.audio_url).1.filename),
        state := (get_text_response env st msg).2,
        fs := fsWrite fs
          (download_audio_file env
            (get_generated_audio env (get_text_response env st msg).1).1.audio_url).1.filename
          ((download_audio_file env
            (get_generated_audio env (get_text_response env st msg).1).1.audio_url).1.content.getD []),
        trace := (get_generated_audio env (get_text_response env st msg).1).2 ++
          (download_audio_file env
            (get_generated_audio env (get_text_response env st msg).1).1.audio_url).2 } := by
  unfold get_text_and_audio_response
  rw [hk]
  dsimp only
  rw [if_pos rfl, if_pos hs, if_pos hd, hw]
  rfl

lemma append_ne_empty_left (s t : String) (hs : s.data ≠ []) : s ++ t ≠ "" := by
  intro h
  rw [String.ext_iff, String.data_append] at h
  simp only [List.append_eq_nil] at h
  exact hs h.1

lemma download_success_shape (env : Env) (url : String)
    (h : (download_audio_file env url).1.error = "") :
    (download_audio_file env url).1 =
      { content := some (match env.httpGet url with
          | .response _ _ content => content
          | .transportError _ => []),
        error := "",
        filename := "audio_" ++ String.mk ((md5Hexdigest url).take 8) ++ ".mp3" } := by
  revert h
  unfold download_audio_file
  cases env.httpGet url with
  | transportError e =>
      dsimp only
      intro h
      exact absurd h (append_ne_empty_left _ _ (by decide))
  | response status ct content =>
      dsimp only
      by_cases hs : status ≠ 200
      · rw [if_pos hs]
        intro h
        exact absurd h (append_ne_empty_left _ _ (by decide))
      · rw [if_neg hs]
        intro _
        rfl

/-! ### More helper lemmas -/

lemma generated_audio_cases (env : Env) (t : String) :
    ((get_generated_audio env t).1.type = "SUCCESS" ∧
      (get_generated_audio env t).1.audio_url ≠ "") ∨
    ((get_generated_audio env t).1.type = "ERROR" ∧
      (get_generated_audio env t).1.audio_url = "") := by
  unfold get_generated_audio
  by_cases hk : env.murfaiApiKey = false
  · rw [if_pos hk]
    right
    exact ⟨rfl, rfl⟩
  · rw [if_neg hk]
    cases env.murfPost t with
    | transportError e => right; exact ⟨rfl, rfl⟩
    | response status reason body =>
        dsimp only
        by_cases h1 : 400 ≤ status ∧ status < 600
        · rw [if_pos h1]; right; exact ⟨rfl, rfl⟩
        · rw [if_neg h1]
          cases body with
          | error e => right; exact ⟨rfl, rfl⟩
          | ok data =>
              dsimp only
              by_cases h2 : data.audioFile ≠ ""
              · rw [if_pos h2]; left; exact ⟨rfl, h2⟩
              · rw [if_neg h2]; right; exact ⟨rfl, rfl⟩

lemma trace_get_mem (env : Env) (st : ConvState) (fs : FS) (msg : String) (u : String)
    (hmem : NetEvent.get u ∈ (get_text_and_audio_response env st fs msg).trace) :
    u = (get_generated_audio env (get_text_response env st msg).1).1.audio_url ∧
    (get_generated_audio env (get_text_response env st msg).1).1.type = "SUCCESS" := by
  cases hk : env.murfaiApiKey with
  | false =>
      rw [turn_no_key env st fs msg hk] at hmem
      simp at hmem
  | true =>
      by_cases hs : (get_generated_audio env (get_text_response env st msg).1).1.type
          = "SUCCESS"
      case neg =>
        rw [turn_synth_fail env st fs msg hk hs] at hmem
        simp only [generated_audio_trace env _ hk] at hmem
        simp at hmem
      case pos =>
        have htr : (get_text_and_audio_response env st fs msg).trace =
            (get_generated_audio env (get_text_response env st msg).1).2 ++
            (download_audio_file env
              (get_generated_audio env (get_text_response env st msg).1).1.audio_url).2 := by
          by_cases hd : (download_audio_file env
              (get_generated_audio env (get_text_response env st msg).1).1.audio_url).1.error
              = ""
          · cases hw : env.writeOk (download_audio_file env
                (get_generated_audio env (get_text_response env st msg).1).1.audio_url).1.filename with
            | false => rw [turn_write_fail env st fs msg hk hs hd hw]
            | true => rw [turn_full_success env st fs msg hk hs hd hw]
          · rw [turn_dl_fail env st fs msg hk hs hd]
        rw [htr, generated_audio_trace env _ hk, download_trace] at hmem
        simp at hmem
        exact ⟨hmem, hs⟩

lemma turn_result_text (env : Env) (st : ConvState) (fs : FS) (msg : String)
    (t : String) (a : Option String)
    (h : (get_text_and_audio_response env st fs msg).result = .ok (t, a)) :
    t = (get_text_response env st msg).1 := by
  cases hk : env.murfaiApiKey with
  | false =>
      rw [turn_no_key env st fs msg hk] at h
      simp only [Except.ok.injEq, Prod.mk.injEq] at h
      exact h.1.symm
  | true =>
      by_cases hs : (get_generated_audio env (get_text_response env st msg).1).1.type
          = "SUCCESS"
      case neg =>
        rw [turn_synth_fail env st fs msg hk hs] at h
        simp only [Except.ok.injEq, Prod.mk.injEq] at h
        exact h.1.symm
      case pos =>
        by_cases hd : (download_audio_file env
            (get_generated_audio env (get_text_response env st msg).1).1.audio_url).1.error
            = ""
        case neg =>
          rw [turn_dl_fail env st fs msg hk hs hd] at h
          simp only [Except.ok.injEq, Prod.mk.injEq] at h
          exact h.1.symm
        case pos =>
          cases hw : env.writeOk (download_audio_file env
              (get_generated_audio env (get_text_response env st msg).1).1.audio_url).1.filename with
          | false =>
              rw [turn_write_fail env st fs msg hk hs hd hw] at h
              simp at h
          | true =>
              rw [turn_full_success env st fs msg hk hs hd hw] at h
              simp only [Except.ok.injEq, Prod.mk.injEq] at h
              exact h.1.symm

lemma get_text_response_ne_empty (env : Env) (st : ConvState) (msg : String)
    (hp : ∀ r, env.predict st msg = .ok r → r ≠ "") :
    (get_text_response env st msg).1 ≠ "" := by
  unfold get_text_response
  by_cases hc : (env.llmChain && env.openaiApiKey) = true
  · rw [if_pos hc]
    cases he : env.predict st msg with
    | ok r => exact hp r he
    | error e => exact get_fallback_response_ne_empty msg
  · rw [if_neg hc]
    exact get_fallback_response_ne_empty msg

/-! ### Claims -/

/-- C3: `get_fallback_response` is total on strings (it is a Lean function,
so it never fails) and equals the spec's first-match rule table: lowercase
the utterance, test the keyword groups {memorable, experience}, {hidden,
gem}, {prepare, culture}, {adventure, sport}, {one country, rest of your
life} in that order, return the first matching group's canned reply, else
the generic clarifying reply; in particular an utterance whose lowercase
form contains both "hidden" and "memorable" gets the memorable/experience
reply. -/
theorem fallback_matches_spec_order :
    ∀ m : String, get_fallback_response m = respondSpec m ∧
      (containsStr (py_lower m) "hidden" = true →
        containsStr (py_lower m) "memorable" = true →
        get_fallback_response m = fbResp "travel experience") := by
  intro m
  constructor
  · simp only [get_fallback_response, respondSpec, respondSpecRules, firstMatchReply,
      List.any_cons, List.any_nil, Bool.or_false]
    split_ifs <;> rfl
  · intro _ hm
    unfold get_fallback_response
    dsimp only
    rw [if_pos (by simp [hm])]

/-- Witness for C3 at the concrete utterance "A memorable hidden gem". -/
theorem fallback_matches_spec_order_witness :
    get_fallback_response "A memorable hidden gem" = fbResp "travel experience" :=
  (fallback_matches_spec_order "A memorable hidden gem").2 (by decide) (by decide)

/-- C4: with no Murf key, `get_generated_audio` returns the
"not configured" error without any network call (empty trace), and the
orchestrator returns `(text, None)` with no network call at all. -/
theorem no_key_no_synthesis_call :
    ∀ (env : Env) (t : String) (st : ConvState) (fs : FS) (msg : String),
      env.murfaiApiKey = false →
      get_generated_audio env t =
        ({ type := "ERROR", audio_url := "",
           response := .str "Murf AI API key not configured" }, []) ∧
      (get_text_and_audio_response env st fs msg).result =
        .ok ((get_text_response env st msg).1, none) ∧
      (get_text_and_audio_response env st fs msg).trace = [] := by
  intro env t st fs msg h
  refine ⟨?_, ?_, ?_⟩
  · unfold get_generated_audio
    rw [if_pos h]
  · rw [turn_no_key env st fs msg h]
  · rw [turn_no_key env st fs msg h]

/-- Witness for C4 in the concrete key-less environment. -/
theorem no_key_no_synthesis_call_witness :
    get_generated_audio envNoMurf "hello" =
      ({ type := "ERROR", audio_url := "",
         response := .str "Murf AI API key not configured" }, []) ∧
    (get_text_and_audio_response envNoMurf [] emptyFS "hi").result =
      .ok ((get_text_response envNoMurf [] "hi").1, none) ∧
    (get_text_and_audio_response envNoMurf [] emptyFS "hi").trace = [] :=
  no_key_no_synthesis_call envNoMurf "hello" [] emptyFS "hi" rfl

/-- C5: a successful download's filename is `audio_` + the first 8 hex
characters of the MD5 of the URL + `.mp3` — a deterministic function of the
URL alone, so two successful downloads of the same URL (in possibly
different environments) agree on the filename. -/
theorem download_filename_deterministic_hash :
    ∀ (env env2 : Env) (url : String),
      ((download_audio_file env url).1.error = "" →
        (download_audio_file env url).1.filename =
          "audio_" ++ String.mk ((md5Hexdigest url).take 8) ++ ".mp3" ∧
        ((md5Hexdigest url).take 8).length = 8 ∧
        (∀ c ∈ (md5Hexdigest url).take 8, c ∈ hexDigits)) ∧
      ((download_audio_file env url).1.error = "" →
        (download_audio_file env2 url).1.error = "" →
        (download_audio_file env url).1.filename =
          (download_audio_file env2 url).1.filename) := by
  intro env env2 url
  constructor
  · intro h
    refine ⟨by rw [download_success_shape env url h], ?_, ?_⟩
    · rw [List.length_take, md5Hexdigest_length]
      decide
    · intro c hc
      exact mem_md5Hexdigest_mem_hexDigits (List.take_subset _ _ hc)
  · intro h h2
    rw [download_success_shape env url h, download_success_shape env2 url h2]

/-- Witness for C5: the concrete URL hashes to `661e336a`. -/
theorem download_filename_deterministic_hash_witness :
    (download_audio_file testEnv "https://cdn.murf.ai/a.mp3").1.filename =
      "audio_" ++ String.mk ((md5Hexdigest "https://cdn.murf.ai/a.mp3").take 8) ++ ".mp3" ∧
    ((md5Hexdigest "https://cdn.murf.ai/a.mp3").take 8).length = 8 ∧
    (∀ c ∈ (md5Hexdigest "https://cdn.murf.ai/a.mp3").take 8, c ∈ hexDigits) :=
  (download_filename_deterministic_hash testEnv testEnv "https://cdn.murf.ai/a.mp3").1
    (by decide)

/-- C6: a non-200 download status yields the `Download failed. Status: <code>`
error with no bytes and no filename; and when the Murf key is present,
synthesis succeeded but the download failed, the orchestrator returns the
pre-download text unchanged with no audio path. -/
theorem download_non200_and_text_preserved :
    ∀ (env : Env) (url : String) (status : Nat) (ct : String) (content : List Nat),
      (env.httpGet url = .response status ct content → status ≠ 200 →
        (download_audio_file env url).1 =
          { content := none, error := "Download failed. Status: " ++ toString status,
            filename := "" }) ∧
      (∀ (st : ConvState) (fs : FS) (msg : String),
        env.murfaiApiKey = true →
        (get_generated_audio env (get_text_response env st msg).1).1.type = "SUCCESS" →
        (download_audio_file env
          (get_generated_audio env (get_text_response env st msg).1).1.audio_url).1.error ≠ "" →
        (get_text_and_audio_response env st fs msg).result =
          .ok ((get_text_response env st msg).1, none)) := by
  intro env url status ct content
  constructor
  · intro hg hs
    unfold download_audio_file
    rw [hg]
    dsimp only
    rw [if_pos hs]
  · intro st fs msg hk hsucc hd
    rw [turn_dl_fail env st fs msg hk hsucc hd]

/-- Witness for C6 in the environment whose audio host answers 404. -/
theorem download_non200_and_text_preserved_witness :
    (download_audio_file envDown404 "https://cdn.murf.ai/a.mp3").1 =
      { content := none, error := "Download failed. Status: " ++ toString 404,
        filename := "" } ∧
    (get_text_and_audio_response envDown404 [] emptyFS "hi").result =
      .ok ((get_text_response envDown404 [] "hi").1, none) :=
  ⟨(download_non200_and_text_preserved envDown404 "https://cdn.murf.ai/a.mp3"
      404 "Not Found" []).1 rfl (by decide),
   (download_non200_and_text_preserved envDown404 "https://cdn.murf.ai/a.mp3"
      404 "Not Found" []).2 [] emptyFS "hi" rfl (by decide) (by decide)⟩

/-- C7: if the model backend is unconfigured (no chain object or no key) or
its call raises, `get_text_response` does not raise, returns exactly the
fallback responder's output for the utterance, and leaves the conversation
memory untouched. -/
theorem text_generator_fallback_on_error :
    ∀ (env : Env) (st : ConvState) (msg : String),
      ((env.llmChain = false ∨ env.openaiApiKey = false) →
        get_text_response env st msg = (get_fallback_response msg, st)) ∧
      (∀ e, env.predict st msg = .error e →
        get_text_response env st msg = (get_fallback_response msg, st)) := by
  intro env st msg
  constructor
  · intro h
    unfold get_text_response
    rw [if_neg (by rcases h with h | h <;> simp [h])]
  · intro e he
    unfold get_text_response
    by_cases hc : (env.llmChain && env.openaiApiKey) = true
    · rw [if_pos hc, he]
    · rw [if_neg hc]

/-- Witness for C7: an unconfigured backend and a raising backend. -/
theorem text_generator_fallback_on_error_witness :
    get_text_response testEnv [] "What should I pack?" =
      (get_fallback_response "What should I pack?", []) ∧
    get_text_response envLLMErr [] "hi" = (get_fallback_response "hi", []) :=
  ⟨(text_generator_fallback_on_error testEnv [] "What should I pack?").1 (Or.inl rfl),
   (text_generator_fallback_on_error envLLMErr [] "hi").2 "no backend" rfl⟩

/-- C8: with a Murf key, when the POST comes back with a 2xx status and a
JSON body, the `audioFile` field decides the outcome: absent-or-empty gives
the "No audio URL returned" error, otherwise SUCCESS carrying that URL and
the parsed body. -/
theorem synthesis_2xx_parse :
    ∀ (env : Env) (text : String) (status : Nat) (reason : String) (data : JsonData),
      env.murfaiApiKey = true →
      env.murfPost text = .response status reason (.ok data) →
      200 ≤ status → status < 300 →
      ((data.audioFile = "" →
        (get_generated_audio env text).1 =
          { type := "ERROR", audio_url := "",
            response := .str ("No audio URL returned. Response: " ++ data.printed) }) ∧
      (data.audioFile ≠ "" →
        (get_generated_audio env text).1 =
          { type := "SUCCESS", audio_url := data.audioFile,
            response := .json data })) := by
  intro env text status reason data hk hp h1 h2
  unfold get_generated_audio
  rw [if_neg (by simp [hk]), hp]
  dsimp only
  rw [if_neg (by omega : ¬(400 ≤ status ∧ status < 600))]
  constructor
  · intro h0
    rw [if_neg (by simp [h0])]
  · intro h0
    rw [if_pos h0]

/-- Witness for C8: an empty and a non-empty `audioFile` field at 200. -/
theorem synthesis_2xx_parse_witness :
    (get_generated_audio envNoAudioUrl "hello").1 =
      { type := "ERROR", audio_url := "",
        response := .str ("No audio URL returned. Response: " ++ "no url") } ∧
    (get_generated_audio testEnv "hello").1 =
      { type := "SUCCESS", audio_url := "https://cdn.murf.ai/a.mp3",
        response := .json { audioFile := "https://cdn.murf.ai/a.mp3",
                            printed := "resp" } } :=
  ⟨(synthesis_2xx_parse envNoAudioUrl "hello" 200 "OK"
      { audioFile := "", printed := "no url" } rfl rfl (by omega) (by omega)).1 rfl,
   (synthesis_2xx_parse testEnv "hello" 200 "OK"
      { audioFile := "https://cdn.murf.ai/a.mp3", printed := "resp" }
      rfl rfl (by omega) (by omega)).2 (by decide)⟩

/-- C10: every `get_generated_audio` result is tagged exactly "SUCCESS" or
"ERROR" (never the initial empty string), SUCCESS implies a non-empty
`audio_url`, and consequently every GET the orchestrator issues is on a
non-empty URL. -/
theorem generated_audio_tagged_invariant :
    ∀ (env : Env) (t : String) (st : ConvState) (fs : FS) (msg : String) (u : String),
      ((get_generated_audio env t).1.type = "SUCCESS" ∨
        (get_generated_audio env t).1.type = "ERROR") ∧
      ((get_generated_audio env t).1.type = "SUCCESS" →
        (get_generated_audio env t).1.audio_url ≠ "") ∧
      (NetEvent.get u ∈ (get_text_and_audio_response env st fs msg).trace → u ≠ "") := by
  intro env t st fs msg u
  refine ⟨?_, ?_, ?_⟩
  · rcases generated_audio_cases env t with ⟨h, _⟩ | ⟨h, _⟩
    · exact Or.inl h
    · exact Or.inr h
  · intro hs
    rcases generated_audio_cases env t with ⟨_, h⟩ | ⟨he, _⟩
    · exact h
    · rw [he] at hs
      exact absurd hs (by decide)
  · intro hmem
    obtain ⟨hu, hs⟩ := trace_get_mem env st fs msg u hmem
    rcases generated_audio_cases env (get_text_response env st msg).1 with ⟨_, h⟩ | ⟨he, _⟩
    · rw [hu]
      exact h
    · rw [he] at hs
      exact absurd hs (by decide)

/-- Witness for C10: the tag dichotomy and a non-empty URL on SUCCESS in the
concrete environments. -/
theorem generated_audio_tagged_invariant_witness :
    (get_generated_audio testEnv "hi").1.audio_url ≠ "" ∧
    ((get_generated_audio envNoMurf "hi").1.type = "SUCCESS" ∨
      (get_generated_audio envNoMurf "hi").1.type = "ERROR") :=
  ⟨(generated_audio_tagged_invariant testEnv "hi" [] emptyFS "m" "u").2.1 (by decide),
   (generated_audio_tagged_invariant envNoMurf "hi" [] emptyFS "m" "u").1⟩

/-- C1 counterexample: in `envWriteFail` synthesis and download succeed but
the file write fails, and the orchestrator then raises (`result.toOption =
none`, i.e. no `TurnResult` is produced at all) instead of yielding
`audioFilePath = absent` as the claim requires of every failure in the
chain. -/
theorem audio_path_claim_counterexample :
    (get_text_and_audio_response envWriteFail [] emptyFS "hi").result.toOption = none ∧
    (turnSynth envWriteFail [] "hi").type = "SUCCESS" ∧
    (turnDownload envWriteFail [] "hi").error = "" := by
  refine ⟨by decide, by decide, by decide⟩

/-- C1 (amended): a returned `TurnResult` has `audioFilePath = some f`
exactly when the Murf key is present, synthesis succeeded, the download
succeeded and the write of `f` succeeded — and then `f` is the download's
filename and holds exactly the downloaded bytes (never a partial file);
a synthesis or download failure still returns with `audioFilePath = none`;
a write failure, however, raises instead of returning a `TurnResult`. -/
theorem audio_path_iff_chain_success :
    ∀ (env : Env) (st : ConvState) (fs : FS) (msg : String),
      (∀ t f, (get_text_and_audio_response env st fs msg).result = .ok (t, some f) →
        env.murfaiApiKey = true ∧ (turnSynth env st msg).type = "SUCCESS" ∧
        (turnDownload env st msg).error = "" ∧ env.writeOk f = true ∧
        f = (turnDownload env st msg).filename ∧
        (get_text_and_audio_response env st fs msg).fs f =
          some ((turnDownload env st msg).content.getD [])) ∧
      (∀ t, (get_text_and_audio_response env st fs msg).result = .ok (t, none) →
        ¬(env.murfaiApiKey = true ∧ (turnSynth env st msg).type = "SUCCESS" ∧
          (turnDownload env st msg).error = "")) ∧
      (∀ e, (get_text_and_audio_response env st fs msg).result = .error e →
        env.murfaiApiKey = true ∧ (turnSynth env st msg).type = "SUCCESS" ∧
        (turnDownload env st msg).error = "" ∧
        env.writeOk (turnDownload env st msg).filename = false) := by
  intro env st fs msg
  unfold turnDownload turnSynth turnText
  cases hk : env.murfaiApiKey with
  | false =>
      rw [turn_no_key env st fs msg hk]
      refine ⟨fun t f h => ?_, fun t h => ?_, fun e h => ?_⟩
      · simp at h
      · rintro ⟨h1, -, -⟩
        exact Bool.noConfusion h1
      · simp at h
  | true =>
      by_cases hs : (get_generated_audio env (get_text_response env st msg).1).1.type
          = "SUCCESS"
      case neg =>
        rw [turn_synth_fail env st fs msg hk hs]
        refine ⟨fun t f h => ?_, fun t h => ?_, fun e h => ?_⟩
        · simp at h
        · rintro ⟨-, h2, -⟩
          exact hs h2
        · simp at h
      case pos =>
        by_cases hd : (download_audio_file env
            (get_generated_audio env (get_text_response env st msg).1).1.audio_url).1.error
            = ""
        case neg =>
          rw [turn_dl_fail env st fs msg hk hs hd]
          refine ⟨fun t f h => ?_, fun t h => ?_, fun e h => ?_⟩
          · simp at h
          · rintro ⟨-, -, h3⟩
            exact hd h3
          · simp at h
        case pos =>
          cases hw : env.writeOk (download_audio_file env
              (get_generated_audio env (get_text_response env st msg).1).1.audio_url).1.filename with
          | false =>
              rw [turn_write_fail env st fs msg hk hs hd hw]
              refine ⟨fun t f h => ?_, fun t h => ?_, fun e h => ?_⟩
              · simp at h
              · simp at h
              · exact ⟨rfl, hs, hd, rfl⟩
          | true =>
              rw [turn_full_success env st fs msg hk hs hd hw]
              refine ⟨fun t f h => ?_, fun t h => ?_, fun e h => ?_⟩
              · simp only [Except.ok.injEq, Prod.mk.injEq, Option.some.injEq] at h
                obtain ⟨-, hf⟩ := h
                subst hf
                refine ⟨rfl, hs, hd, hw, rfl, ?_⟩
                unfold fsWrite
                simp
              · simp at h
              · simp at h

set_option maxRecDepth 100000 in
/-- Witness for C1 at the all-success environment: the populated path comes
with the full chain of successes and the file holding the bytes. -/
theorem audio_path_iff_chain_success_witness :
    testEnv.murfaiApiKey = true ∧ (turnSynth testEnv [] "tell me").type = "SUCCESS" ∧
    (turnDownload testEnv [] "tell me").error = "" ∧
    testEnv.writeOk "audio_661e336a.mp3" = true ∧
    "audio_661e336a.mp3" = (turnDownload testEnv [] "tell me").filename ∧
    (get_text_and_audio_response testEnv [] emptyFS "tell me").fs "audio_661e336a.mp3" =
      some ((turnDownload testEnv [] "tell me").content.getD []) :=
  (audio_path_iff_chain_success testEnv [] emptyFS "tell me").1
    (turnText testEnv [] "tell me") "audio_661e336a.mp3" (by decide)

/-- C2 counterexample: with a failing write (synthesis and download having
succeeded), the orchestrator does not return `{text, absent}` — the write
exception propagates and there is no return value. -/
theorem write_failure_no_raise_counterexample :
    (get_text_and_audio_response envWriteFail [] emptyFS "hello").result ≠
      .ok ((get_text_response envWriteFail [] "hello").1, none) ∧
    (get_text_and_audio_response envWriteFail [] emptyFS "hello").result.toOption
      = none := by
  refine ⟨by decide, by decide⟩

/-- C2 (amended): in the persistence step, if the write succeeds the
orchestrator returns `(text, some filename)` and the filesystem afterwards
maps the filename to the downloaded bytes, overwriting whatever `fs` stored
there before; if the write fails, the exception propagates to the caller
(no `{text, absent}` return) and the filesystem is unchanged. -/
theorem persistence_step_behavior :
    ∀ (env : Env) (st : ConvState) (fs : FS) (msg : String),
      env.murfaiApiKey = true →
      (turnSynth env st msg).type = "SUCCESS" →
      (turnDownload env st msg).error = "" →
      ((env.writeOk (turnDownload env st msg).filename = true →
        (get_text_and_audio_response env st fs msg).result =
          .ok (turnText env st msg, some (turnDownload env st msg).filename) ∧
        (get_text_and_audio_response env st fs msg).fs (turnDownload env st msg).filename =
          some ((turnDownload env st msg).content.getD [])) ∧
      (env.writeOk (turnDownload env st msg).filename = false →
        (get_text_and_audio_response env st fs msg).result.toOption = none ∧
        (get_text_and_audio_response env st fs msg).fs = fs)) := by
  intro env st fs msg hk hs hd
  unfold turnDownload turnSynth turnText at *
  constructor
  · intro hw
    rw [turn_full_success env st fs msg hk hs hd hw]
    refine ⟨rfl, ?_⟩
    unfold fsWrite
    simp
  · intro hw
    rw [turn_write_fail env st fs msg hk hs hd hw]
    exact ⟨rfl, rfl⟩

set_option maxRecDepth 100000 in
/-- Witness for C2: the write-success and write-failure environments. -/
theorem persistence_step_behavior_witness :
    (get_text_and_audio_response testEnv [] emptyFS "go").result =
      .ok (turnText testEnv [] "go", some (turnDownload testEnv [] "go").filename) ∧
    (get_text_and_audio_response envWriteFail [] emptyFS "go").result.toOption = none :=
  ⟨((persistence_step_behavior testEnv [] emptyFS "go" rfl (by decide) (by decide)).1
      (by decide)).1,
   ((persistence_step_behavior envWriteFail [] emptyFS "go" rfl (by decide) (by decide)).2
      (by decide)).1⟩

/-- C9 counterexample: with a configured model backend that returns the
empty completion, the turn returns the empty `replyText`. -/
theorem nonempty_reply_counterexample :
    (get_text_and_audio_response envLLMEmpty [] emptyFS "hello").result =
      .ok ("", none) := by
  decide

/-- C9 (amended): every returned `replyText` is non-empty provided any
successful model completion for the utterance is non-empty; in particular
the fallback path (backend unconfigured or raising) always yields a
non-empty reply. The code does not itself check the model's completion for
non-emptiness. -/
theorem nonempty_reply_under_nonempty_model :
    ∀ (env : Env) (st : ConvState) (fs : FS) (msg : String) (t : String)
      (a : Option String),
      (∀ r, env.predict st msg = .ok r → r ≠ "") →
      (get_text_and_audio_response env st fs msg).result = .ok (t, a) →
      t ≠ "" := by
  intro env st fs msg t a hp h
  rw [turn_result_text env st fs msg t a h]
  exact get_text_response_ne_empty env st msg hp

set_option maxRecDepth 100000 in
/-- Witness for C9 (amended) on the fallback path of the all-success
environment. -/
theorem nonempty_reply_under_nonempty_model_witness :
    (get_text_and_audio_response testEnv [] emptyFS "hi there").result =
      .ok (get_fallback_response "hi there", some "audio_661e336a.mp3") ∧
    get_fallback_response "hi there" ≠ "" :=
  ⟨by decide,
   nonempty_reply_under_nonempty_model testEnv [] emptyFS "hi there"
     (get_fallback_response "hi there") (some "audio_661e336a.mp3")
     (fun r h => nomatch h) (by decide)⟩

end TravelBot
